import Mathlib

/-!
Verification of the Monte-Carlo capital simulator in `src/app.py`.

The embedding models money and rates as rationals (the Python code uses
64-bit floats; the claims under study are about the algebraic structure of
the computation, not float rounding).  The numpy random generator is
modelled by an explicit stream `z : ℕ → ℕ → ℚ` of standard-normal draws,
consumed exactly as the code consumes `rng.normal(mean, std)`:
the draw for scenario `s`, year `t` is `mean + std * z s t`.
-/

namespace App

/-- `np.linspace a b num` over ℚ: `num` evenly spaced points from `a` to `b`,
endpoints included (`num = 1` yields `[a]`, `num = 0` yields `[]`). -/
def linspace (a b : ℚ) (num : ℕ) : List ℚ :=
  if num = 0 then []
  else if num = 1 then [a]
  else (List.range num).map (fun m : ℕ => a + (b - a) * (m : ℚ) / ((num : ℚ) - 1))

/-- One withdrawal block of `spend_schedule`: the dict
`{"years": years, "start": start, "end": end}` in the code. -/
structure Phase where
  years : ℕ
  start : ℚ
  end_ : ℚ
deriving Repr, DecidableEq

/-- `contribs_real = np.linspace(monthly_start, monthly_end, months_total)`
with `months_total = years_build * 12` (app.py line 14). -/
def contribs_real (monthly_start monthly_end : ℚ) (years_build : ℕ) : List ℚ :=
  linspace monthly_start monthly_end (years_build * 12)

/-- `contribs_nominal = [contribs_real[m] * ((1+inflation)**(m//12)) for m in
range(months_total)]` (app.py line 15). -/
def contribs_nominal (monthly_start monthly_end : ℚ) (years_build : ℕ) (inflation : ℚ) :
    List ℚ :=
  (List.range (years_build * 12)).map
    (fun m => (contribs_real monthly_start monthly_end years_build).getD m 0
      * (1 + inflation) ^ (m / 12))

/-- `yearly_contribs = [sum(contribs_nominal[i*12:(i+1)*12]) for i in
range(years_build)]` (app.py line 16). -/
def yearly_contribs (monthly_start monthly_end : ℚ) (years_build : ℕ) (inflation : ℚ) :
    List ℚ :=
  (List.range years_build).map
    (fun i =>
      (((contribs_nominal monthly_start monthly_end years_build inflation).drop (i * 12)).take
        12).sum)

/-- `block_vals = np.linspace(block["start"], block["end"], block["years"]*12)`
(app.py line 21). -/
def block_vals (b : Phase) : List ℚ :=
  linspace b.start b.end_ (b.years * 12)

/-- `block_nom = [block_vals[m] * ((1+inflation)**(years_build + m//12)) for m in
range(len(block_vals))]` (app.py line 22). -/
def block_nom (b : Phase) (years_build : ℕ) (inflation : ℚ) : List ℚ :=
  (List.range (block_vals b).length).map
    (fun m => (block_vals b).getD m 0 * (1 + inflation) ^ (years_build + m / 12))

/-- `[sum(block_nom[i*12:(i+1)*12]) for i in range(block["years"])]` (app.py line 23). -/
def block_yearly (b : Phase) (years_build : ℕ) (inflation : ℚ) : List ℚ :=
  (List.range b.years).map
    (fun i => (((block_nom b years_build inflation).drop (i * 12)).take 12).sum)

/-- `yearly_spends`, built by `yearly_spends.extend(...)` over the blocks of
`spend_schedule` in order (app.py lines 19-23). -/
def yearly_spends (spend_schedule : List Phase) (years_build : ℕ) (inflation : ℚ) : List ℚ :=
  (spend_schedule.map (fun b => block_yearly b years_build inflation)).flatten

/-- `withdrawals = [0]*years_build + yearly_spends` (app.py line 24). -/
def withdrawals (spend_schedule : List Phase) (years_build : ℕ) (inflation : ℚ) : List ℚ :=
  List.replicate years_build 0 ++ yearly_spends spend_schedule years_build inflation

/-- `total_years = years_build + len(yearly_spends)` (app.py line 25). -/
def total_years (spend_schedule : List Phase) (years_build : ℕ) (inflation : ℚ) : ℕ :=
  years_build + (yearly_spends spend_schedule years_build inflation).length

/-- `contrib = yearly_contribs[year] if year < years_build else 0` (app.py line 34). -/
def contribAt (yc : List ℚ) (years_build year : ℕ) : ℚ :=
  if year < years_build then yc.getD year 0 else 0

/-- `withdraw = withdrawals[year] if year < len(withdrawals) else 0` (app.py line 35). -/
def withdrawAt (w : List ℚ) (year : ℕ) : ℚ :=
  if year < w.length then w.getD year 0 else 0

/-- One iteration of the inner year loop (app.py lines 33-38): draw
`r = mean + std * z year`, update
`capital = capital*(1+r) + contrib - withdraw`, clamp at 0. -/
def stepYear (yc w : List ℚ) (years_build : ℕ) (mean std : ℚ) (z : ℕ → ℚ)
    (capital : ℚ) (year : ℕ) : ℚ :=
  let r := mean + std * z year
  let c := capital * (1 + r) + contribAt yc years_build year - withdrawAt w year
  if c < 0 then 0 else c

/-- The capital recorded at `results[s, year]`: the value of `capital` after
the year-`t` iteration of the loop, starting from `start_capital`. -/
def capAt (yc w : List ℚ) (years_build : ℕ) (mean std : ℚ) (z : ℕ → ℚ)
    (start_capital : ℚ) : ℕ → ℚ
  | 0 => stepYear yc w years_build mean std z start_capital 0
  | t + 1 => stepYear yc w years_build mean std z
      (capAt yc w years_build mean std z start_capital t) (t + 1)

/-- Row `s` of `results`: the recorded capital values for years `0..T-1`. -/
def scenarioRow (yc w : List ℚ) (years_build T : ℕ) (mean std : ℚ) (z : ℕ → ℚ)
    (start_capital : ℚ) : List ℚ :=
  (List.range T).map (capAt yc w years_build mean std z start_capital)

/-- The pair `results, withdrawals` returned by `simulate` (app.py line 41). -/
structure SimResult where
  results : List (List ℚ)
  withdrawals : List ℚ
deriving Repr, DecidableEq

/-- The `simulate` function of app.py (lines 9-41), with the random source made
explicit: `z s t` is the standard-normal draw consumed for scenario `s`,
year `t`, so that `rng.normal(mean, std)` realises `mean + std * z s t`. -/
def simulate (start_capital monthly_start monthly_end : ℚ) (years_build : ℕ)
    (spend_schedule : List Phase) (annual_return_mean annual_return_std : ℚ)
    (inflation : ℚ) (n_scenarios : ℕ) (z : ℕ → ℕ → ℚ) : SimResult :=
  let yc := yearly_contribs monthly_start monthly_end years_build inflation
  let w := withdrawals spend_schedule years_build inflation
  let T := total_years spend_schedule years_build inflation
  { results := (List.range n_scenarios).map
      (fun s => scenarioRow yc w years_build T annual_return_mean annual_return_std (z s)
        start_capital)
    withdrawals := w }

/-- `results[s][t]`, with 0 for out-of-range indices. -/
def capitalAt (res : SimResult) (s t : ℕ) : ℚ :=
  (res.results.getD s []).getD t 0

/-- `np.percentile(xs, p)` over ℚ with the default linear-interpolation method:
sort, take rank `p/100 * (n-1)`, interpolate between the two adjacent order
statistics. -/
def npPercentile (xs : List ℚ) (p : ℚ) : ℚ :=
  let ys := xs.mergeSort (fun a b => decide (a ≤ b))
  if ys.length = 0 then 0
  else
    let rank : ℚ := p / 100 * ((ys.length : ℚ) - 1)
    let i : ℕ := (Int.floor rank).toNat
    let lo := ys.getD i 0
    let hi := ys.getD (i + 1) lo
    lo + (rank - (i : ℚ)) * (hi - lo)

/-- `curves[p] = np.percentile(results, p, axis=0)` (app.py line 77): the
column-wise percentile over the scenario axis. -/
def curveOf (results : List (List ℚ)) (p : ℚ) : List ℚ :=
  (List.range (results.headD []).length).map
    (fun t => npPercentile (results.map (fun row => row.getD t 0)) p)

/-- `idx = np.where(series <= 0)[0]; zero_years[p] = idx[0]+1 if len(idx) > 0
else None` (app.py lines 83-84). -/
def zero_years_of (series : List ℚ) : Option ℕ :=
  let idx := (List.range series.length).filter (fun t => decide (series.getD t 0 ≤ 0))
  if idx.length > 0 then some (idx.headD 0 + 1) else none

/-- The raw 0-based index of the first year at which the series is `≤ 0`
(the spec's stated convention for the zero-crossing report), or `none` when
the series never reaches zero. -/
def firstNonPos : List ℚ → Option ℕ
  | [] => none
  | x :: l => if x ≤ 0 then some 0 else (firstNonPos l).map (· + 1)

/-! ## Helper lemmas -/

theorem getD_range_map {α : Type} (f : ℕ → α) (n m : ℕ) (d : α) (h : m < n) :
    ((List.range n).map f).getD m d = f m := by
  have hm : m < ((List.range n).map f).length := by simpa using h
  rw [List.getD_eq_getElem _ _ hm, List.getElem_map, List.getElem_range]

theorem linspace_length (a b : ℚ) (num : ℕ) : (linspace a b num).length = num := by
  unfold linspace
  split
  · simp_all
  · split
    · simp_all
    · simp

theorem linspace_getD (a b : ℚ) (num m : ℕ) (h2 : 2 ≤ num) (hm : m < num) :
    (linspace a b num).getD m 0 = a + (b - a) * m / ((num : ℚ) - 1) := by
  unfold linspace
  rw [if_neg (by omega), if_neg (by omega)]
  exact getD_range_map _ _ _ _ hm

theorem getD_zero_nonneg (l : List ℚ) (h : ∀ x ∈ l, 0 ≤ x) (n : ℕ) : 0 ≤ l.getD n 0 := by
  rcases lt_or_le n l.length with hn | hn
  · rw [List.getD_eq_getElem _ _ hn]
    exact h _ (List.getElem_mem hn)
  · rw [List.getD_eq_default _ _ hn]

theorem clamp_eq_max (c : ℚ) : (if c < 0 then 0 else c) = max 0 c := by
  rcases lt_or_le c 0 with h | h
  · rw [if_pos h, max_eq_left h.le]
  · rw [if_neg (not_lt.mpr h), max_eq_right h]

theorem yearly_contribs_length (ms me : ℚ) (yb : ℕ) (infl : ℚ) :
    (yearly_contribs ms me yb infl).length = yb := by
  simp [yearly_contribs]

theorem block_yearly_length (b : Phase) (yb : ℕ) (infl : ℚ) :
    (block_yearly b yb infl).length = b.years := by
  simp [block_yearly]

theorem yearly_spends_length (sched : List Phase) (yb : ℕ) (infl : ℚ) :
    (yearly_spends sched yb infl).length = (sched.map (fun b => b.years)).sum := by
  simp only [yearly_spends, List.length_flatten, List.map_map]
  congr 1
  exact List.map_congr_left fun b _ => block_yearly_length b yb infl

theorem withdrawals_length (sched : List Phase) (yb : ℕ) (infl : ℚ) :
    (withdrawals sched yb infl).length = total_years sched yb infl := by
  simp [withdrawals, total_years]

theorem withdrawAt_before_build (sched : List Phase) (yb : ℕ) (infl : ℚ) (t : ℕ)
    (ht : t < yb) : withdrawAt (withdrawals sched yb infl) t = 0 := by
  have hlen : t < (withdrawals sched yb infl).length := by
    rw [withdrawals_length]
    unfold total_years
    omega
  rw [withdrawAt, if_pos hlen, withdrawals,
    List.getD_append _ _ _ _ (by simpa using ht)]
  have h2 : t < (List.replicate yb (0 : ℚ)).length := by simpa using ht
  rw [List.getD_eq_getElem _ _ h2, List.getElem_replicate]

theorem withdrawals_mem_nonneg (sched : List Phase) (yb : ℕ) (infl : ℚ)
    (hs : ∀ x ∈ yearly_spends sched yb infl, 0 ≤ x) :
    ∀ x ∈ withdrawals sched yb infl, 0 ≤ x := by
  intro x hx
  rw [withdrawals, List.mem_append] at hx
  rcases hx with hx | hx
  · rw [List.eq_of_mem_replicate hx]
  · exact hs x hx

theorem stepYear_nonneg (yc w : List ℚ) (yb : ℕ) (mean std : ℚ) (z : ℕ → ℚ)
    (c : ℚ) (year : ℕ) : 0 ≤ stepYear yc w yb mean std z c year := by
  simp only [stepYear]
  split
  · exact le_refl 0
  · exact not_lt.mp (by assumption)

theorem capAt_nonneg (yc w : List ℚ) (yb : ℕ) (mean std : ℚ) (z : ℕ → ℚ)
    (start : ℚ) (t : ℕ) : 0 ≤ capAt yc w yb mean std z start t := by
  cases t with
  | zero => exact stepYear_nonneg yc w yb mean std z start 0
  | succ t => exact stepYear_nonneg yc w yb mean std z _ (t + 1)

theorem simulate_results_getD (start ms me : ℚ) (yb : ℕ) (sched : List Phase)
    (mean std infl : ℚ) (n : ℕ) (z : ℕ → ℕ → ℚ) (s : ℕ) (hs : s < n) :
    (simulate start ms me yb sched mean std infl n z).results.getD s []
      = scenarioRow (yearly_contribs ms me yb infl) (withdrawals sched yb infl) yb
          (total_years sched yb infl) mean std (z s) start := by
  unfold simulate
  exact getD_range_map _ _ _ _ hs

theorem simulate_capitalAt (start ms me : ℚ) (yb : ℕ) (sched : List Phase)
    (mean std infl : ℚ) (n : ℕ) (z : ℕ → ℕ → ℚ) (s t : ℕ) (hs : s < n)
    (ht : t < total_years sched yb infl) :
    capitalAt (simulate start ms me yb sched mean std infl n z) s t
      = capAt (yearly_contribs ms me yb infl) (withdrawals sched yb infl) yb
          mean std (z s) start t := by
  rw [capitalAt, simulate_results_getD start ms me yb sched mean std infl n z s hs,
    scenarioRow]
  exact getD_range_map _ _ _ _ ht

theorem capitalAt_nonneg (start ms me : ℚ) (yb : ℕ) (sched : List Phase)
    (mean std infl : ℚ) (n : ℕ) (z : ℕ → ℕ → ℚ) (s t : ℕ) :
    0 ≤ capitalAt (simulate start ms me yb sched mean std infl n z) s t := by
  unfold capitalAt
  apply getD_zero_nonneg
  intro x hx
  have hrow : ∀ row ∈ (simulate start ms me yb sched mean std infl n z).results,
      ∀ y ∈ row, 0 ≤ y := by
    intro row hrowmem y hy
    unfold simulate at hrowmem
    simp only [List.mem_map, List.mem_range] at hrowmem
    obtain ⟨sIdx, _, rfl⟩ := hrowmem
    unfold scenarioRow at hy
    simp only [List.mem_map, List.mem_range] at hy
    obtain ⟨tIdx, _, rfl⟩ := hy
    exact capAt_nonneg _ _ _ _ _ _ _ _
  rcases lt_or_le s (simulate start ms me yb sched mean std infl n z).results.length
    with hsl | hsl
  · rw [List.getD_eq_getElem _ _ hsl] at hx
    exact hrow _ (List.getElem_mem hsl) x hx
  · rw [List.getD_eq_default _ _ hsl] at hx
    simp at hx

theorem capAt_absorb (yc w : List ℚ) (yb : ℕ) (mean std : ℚ) (z : ℕ → ℚ)
    (start : ℚ) (t : ℕ)
    (h0 : capAt yc w yb mean std z start t = 0) :
    ∀ t', t ≤ t' →
      (∀ u, t < u → u ≤ t' → contribAt yc yb u ≤ withdrawAt w u) →
      capAt yc w yb mean std z start t' = 0 := by
  intro t' htt'
  induction t' with
  | zero =>
    intro _
    have : t = 0 := Nat.le_zero.mp htt'
    rw [← this]
    exact h0
  | succ k ih =>
    intro hflow
    rcases Nat.lt_or_ge t (k + 1) with hlt | hge
    · have hk : capAt yc w yb mean std z start k = 0 :=
        ih (Nat.lt_succ_iff.mp hlt) (fun u hu1 hu2 => hflow u hu1 (Nat.le_succ_of_le hu2))
      show stepYear yc w yb mean std z (capAt yc w yb mean std z start k) (k + 1) = 0
      rw [hk]
      unfold stepYear
      have hle : contribAt yc yb (k + 1) ≤ withdrawAt w (k + 1) :=
        hflow (k + 1) hlt (le_refl _)
      simp only [zero_mul, zero_add]
      rcases lt_or_le (contribAt yc yb (k + 1) - withdrawAt w (k + 1)) 0 with hc | hc
      · rw [if_pos hc]
      · rw [if_neg (not_lt.mpr hc)]
        linarith
    · have : t = k + 1 := le_antisymm htt' hge
      rw [← this]
      exact h0

theorem capAt_std_zero (yc w : List ℚ) (yb : ℕ) (mean : ℚ) (z z' : ℕ → ℚ)
    (start : ℚ) (t : ℕ) :
    capAt yc w yb mean 0 z start t = capAt yc w yb mean 0 z' start t := by
  induction t with
  | zero => simp only [capAt, stepYear, zero_mul, add_zero]
  | succ k ih => simp only [capAt, stepYear, zero_mul, add_zero, ih]

theorem simulate_std_zero (start ms me : ℚ) (yb : ℕ) (sched : List Phase)
    (mean infl : ℚ) (n : ℕ) (z z' : ℕ → ℕ → ℚ) :
    simulate start ms me yb sched mean 0 infl n z
      = simulate start ms me yb sched mean 0 infl n z' := by
  unfold simulate
  simp only [SimResult.mk.injEq, and_true]
  apply List.map_congr_left
  intro s _
  unfold scenarioRow
  apply List.map_congr_left
  intro t _
  exact capAt_std_zero _ _ _ _ _ _ _ t

theorem capAt_zero_return (yc w : List ℚ) (yb : ℕ) (z : ℕ → ℚ) (start : ℚ)
    (hstart : 0 ≤ start)
    (hbuild : ∀ u, u < yb → 0 ≤ contribAt yc yb u - withdrawAt w u)
    (hdecum : ∀ u, yb ≤ u → contribAt yc yb u - withdrawAt w u ≤ 0) :
    ∀ t, capAt yc w yb 0 0 z start t
      = max 0 (start + ((List.range (t + 1)).map
          (fun u => contribAt yc yb u - withdrawAt w u)).sum) := by
  have hS : ∀ t, t < yb → 0 ≤ start + ((List.range (t + 1)).map
      (fun u => contribAt yc yb u - withdrawAt w u)).sum := by
    intro t ht
    apply add_nonneg hstart
    apply List.sum_nonneg
    intro x hx
    simp only [List.mem_map, List.mem_range] at hx
    obtain ⟨u, hu, rfl⟩ := hx
    exact hbuild u (by omega)
  have hsum : ∀ k, ((List.range (k + 2)).map
      (fun u => contribAt yc yb u - withdrawAt w u)).sum
        = ((List.range (k + 1)).map
            (fun u => contribAt yc yb u - withdrawAt w u)).sum
          + (contribAt yc yb (k + 1) - withdrawAt w (k + 1)) := by
    intro k
    rw [List.range_succ, List.map_append, List.sum_append]
    simp
  intro t
  induction t with
  | zero =>
    show stepYear yc w yb 0 0 z start 0 = _
    simp only [stepYear, zero_mul, add_zero, mul_one]
    rw [clamp_eq_max]
    congr 1
    simp [List.range_succ]
    ring
  | succ k ih =>
    show stepYear yc w yb 0 0 z (capAt yc w yb 0 0 z start k) (k + 1) = _
    simp only [stepYear, zero_mul, add_zero, mul_one]
    rw [clamp_eq_max, ih, hsum k]
    rcases le_or_lt 0 (start + ((List.range (k + 1)).map
        (fun u => contribAt yc yb u - withdrawAt w u)).sum) with h | h
    · rw [max_eq_right h]
      congr 1
      ring
    · have hyb : yb ≤ k := by
        by_contra hcon
        push_neg at hcon
        exact absurd (hS k hcon) (not_le.mpr h)
      have hF : contribAt yc yb (k + 1) - withdrawAt w (k + 1) ≤ 0 :=
        hdecum (k + 1) (by omega)
      rw [max_eq_left h.le]
      rw [max_eq_left (by linarith), max_eq_left (by linarith)]

theorem head?_filter_range (l : List ℚ) :
    ((List.range l.length).filter (fun t => decide (l.getD t 0 ≤ 0))).head?
      = firstNonPos l := by
  induction l with
  | nil => simp [firstNonPos]
  | cons a l ih =>
    rw [List.length_cons, List.range_succ_eq_map, List.filter_cons]
    by_cases ha : a ≤ 0
    · rw [if_pos (by simpa using ha)]
      simp [firstNonPos, ha]
    · rw [if_neg (by simpa using ha)]
      have hpred : (List.range l.length).filter
            ((fun t => decide ((a :: l).getD t 0 ≤ 0)) ∘ Nat.succ)
          = (List.range l.length).filter (fun t => decide (l.getD t 0 ≤ 0)) := by
        apply List.filter_congr
        intro t _
        simp [Function.comp, List.getD_cons_succ]
      rw [List.filter_map, hpred, List.head?_map, ih]
      simp [firstNonPos, ha, Option.map_map, Function.comp, Nat.succ_eq_add_one]

theorem zero_years_of_eq (l : List ℚ) :
    zero_years_of l = (firstNonPos l).map (fun i => i + 1) := by
  rw [← head?_filter_range]
  simp only [zero_years_of]
  cases h : (List.range l.length).filter (fun t => decide (l.getD t 0 ≤ 0)) with
  | nil => simp [h]
  | cons i rest => simp [h]

/-! ## Concrete evaluations used by witnesses and counterexamples -/

theorem ev_yc300 : yearly_contribs 300 300 1 (2/100) = [3600] := by
  norm_num [yearly_contribs, contribs_nominal, contribs_real, linspace,
    List.range_succ, getD_range_map]

theorem ev_yc0 : yearly_contribs 0 0 1 (2/100) = [0] := by
  norm_num [yearly_contribs, contribs_nominal, contribs_real, linspace,
    List.range_succ, getD_range_map]

theorem ev_spends_nil (yb : ℕ) (infl : ℚ) : yearly_spends [] yb infl = [] := by
  simp [yearly_spends]

theorem ev_w_nil : withdrawals [] 1 (2/100) = [0] := by
  simp [withdrawals, ev_spends_nil]

theorem ev_T_nil : total_years [] 1 (2/100) = 1 := by
  simp [total_years, ev_spends_nil]

theorem ev_spends0 : yearly_spends [⟨1, 0, 0⟩] 1 (2/100) = [0] := by
  norm_num [yearly_spends, block_yearly, block_nom, block_vals, linspace,
    List.range_succ, getD_range_map]

theorem ev_w0 : withdrawals [⟨1, 0, 0⟩] 1 (2/100) = [0, 0] := by
  rw [withdrawals, ev_spends0]
  rfl

theorem ev_T0 : total_years [⟨1, 0, 0⟩] 1 (2/100) = 2 := by
  rw [total_years, ev_spends0]
  rfl

theorem ev_spends3000 : yearly_spends [⟨1, 3000, 3000⟩] 1 (2/100) = [36720] := by
  norm_num [yearly_spends, block_yearly, block_nom, block_vals, linspace,
    List.range_succ, getD_range_map]

theorem ev_cap6 :
    capitalAt (simulate 10000 300 300 1 [] 0 0 (2/100) 1 (fun _ _ => 0)) 0 0 = 13600 := by
  rw [simulate_capitalAt 10000 300 300 1 [] 0 0 (2/100) 1 (fun _ _ => 0) 0 0
    Nat.zero_lt_one (by rw [ev_T_nil]; exact Nat.zero_lt_one)]
  rw [ev_yc300, ev_w_nil]
  norm_num [capAt, stepYear, contribAt, withdrawAt]

theorem ev_cap7a :
    capitalAt (simulate 10000 300 300 1 [] 0 1 (2/100) 1 (fun _ _ => 0)) 0 0 = 13600 := by
  rw [simulate_capitalAt 10000 300 300 1 [] 0 1 (2/100) 1 (fun _ _ => 0) 0 0
    Nat.zero_lt_one (by rw [ev_T_nil]; exact Nat.zero_lt_one)]
  rw [ev_yc300, ev_w_nil]
  norm_num [capAt, stepYear, contribAt, withdrawAt]

theorem ev_cap7b :
    capitalAt (simulate 10000 300 300 1 [] 0 1 (2/100) 1 (fun _ _ => 1)) 0 0 = 23600 := by
  rw [simulate_capitalAt 10000 300 300 1 [] 0 1 (2/100) 1 (fun _ _ => 1) 0 0
    Nat.zero_lt_one (by rw [ev_T_nil]; exact Nat.zero_lt_one)]
  rw [ev_yc300, ev_w_nil]
  norm_num [capAt, stepYear, contribAt, withdrawAt]

theorem ev_cap5 :
    capitalAt (simulate 0 0 0 1 [⟨1, 0, 0⟩] 0 0 (2/100) 1 (fun _ _ => 0)) 0 0 = 0 := by
  rw [simulate_capitalAt 0 0 0 1 [⟨1, 0, 0⟩] 0 0 (2/100) 1 (fun _ _ => 0) 0 0
    Nat.zero_lt_one (by rw [ev_T0]; exact Nat.zero_lt_two)]
  rw [ev_yc0, ev_w0]
  norm_num [capAt, stepYear, contribAt, withdrawAt]

theorem ev_curve : curveOf [[(0 : ℚ)]] 50 = [0] := by
  norm_num [curveOf, npPercentile, List.mergeSort_singleton, List.range_succ,
    List.getD_cons_zero, List.getD_cons_succ]

theorem ev_zero_years : zero_years_of [(0 : ℚ)] = some 1 := by
  norm_num [zero_years_of, List.range_succ]

theorem ev_firstNonPos : firstNonPos [(0 : ℚ)] = some 0 := by
  norm_num [firstNonPos]

/-! ## Claim theorems -/

/-- C4: in every simulated year `t`, the contribution used by the loop is the
scheduled annual contribution for `t < years_build` and 0 otherwise, and the
withdrawal used is the scheduled value for `t` within the withdrawal
sequence's range and 0 otherwise; withdrawals are 0 for all `t < years_build`
and begin at year index `years_build`, where year `years_build + k` withdraws
the `k`-th concatenated phase figure. -/
theorem cash_flow_selection (ms me : ℚ) (yb : ℕ) (infl : ℚ) (sched : List Phase) :
    (∀ t, t < yb → contribAt (yearly_contribs ms me yb infl) yb t
        = (yearly_contribs ms me yb infl).getD t 0) ∧
    (∀ t, yb ≤ t → contribAt (yearly_contribs ms me yb infl) yb t = 0) ∧
    (∀ t, t < (withdrawals sched yb infl).length →
        withdrawAt (withdrawals sched yb infl) t = (withdrawals sched yb infl).getD t 0) ∧
    (∀ t, (withdrawals sched yb infl).length ≤ t →
        withdrawAt (withdrawals sched yb infl) t = 0) ∧
    (∀ t, t < yb → withdrawAt (withdrawals sched yb infl) t = 0) ∧
    (∀ k, k < (yearly_spends sched yb infl).length →
        withdrawAt (withdrawals sched yb infl) (yb + k)
          = (yearly_spends sched yb infl).getD k 0) := by
  refine ⟨fun t ht => if_pos ht, fun t ht => if_neg (not_lt.mpr ht),
    fun t ht => if_pos ht, fun t ht => if_neg (not_lt.mpr ht),
    fun t ht => withdrawAt_before_build sched yb infl t ht, fun k hk => ?_⟩
  have hlen : (withdrawals sched yb infl).length
      = yb + (yearly_spends sched yb infl).length := by
    rw [withdrawals_length, total_years]
  have hin : yb + k < (withdrawals sched yb infl).length := by omega
  rw [withdrawAt, if_pos hin, withdrawals,
    List.getD_append_right _ _ _ _ (by simp)]
  simp

/-- C4 witness: at a concrete input, withdrawals are zero during accumulation
and pick out the phase figure afterwards. -/
theorem cash_flow_selection_witness :
    withdrawAt (withdrawals [⟨1, 0, 0⟩] 1 (2/100)) 0 = 0 ∧
    withdrawAt (withdrawals [⟨1, 0, 0⟩] 1 (2/100)) (1 + 0)
      = (yearly_spends [⟨1, 0, 0⟩] 1 (2/100)).getD 0 0 := by
  have h := cash_flow_selection 300 800 1 (2/100) [⟨1, 0, 0⟩]
  exact ⟨h.2.2.2.2.1 0 Nat.zero_lt_one,
    h.2.2.2.2.2 0 (by rw [ev_spends0]; exact Nat.zero_lt_one)⟩

/-- C9: the built schedules satisfy `len(yearly_contribs) = years_build`,
`len(yearly_spends) = sum of phase.years`, and
`total_years = years_build + len(yearly_spends)`; with no withdrawal phases,
the withdrawal sequence is empty and `total_years = years_build`. -/
theorem schedule_length_invariants (ms me : ℚ) (yb : ℕ) (infl : ℚ) (sched : List Phase) :
    (yearly_contribs ms me yb infl).length = yb ∧
    (yearly_spends sched yb infl).length = (sched.map (fun b => b.years)).sum ∧
    total_years sched yb infl = yb + (yearly_spends sched yb infl).length ∧
    yearly_spends [] yb infl = [] ∧
    total_years ([] : List Phase) yb infl = yb := by
  refine ⟨yearly_contribs_length ms me yb infl, yearly_spends_length sched yb infl,
    rfl, ev_spends_nil yb infl, ?_⟩
  rw [total_years, ev_spends_nil]
  rfl

/-- C10: with `years_build ≥ 1` and each retained phase having `years ≥ 1`,
the padded withdrawal list has length exactly `total_years` (so the loop guard
`year < len(withdrawals)` always holds and its else-0 branch is unreachable),
every index into `yearly_contribs` and `withdrawals` taken by the loop is in
bounds, and the `linspace` denominators `months-1` are nonzero. -/
theorem simulate_loop_safety (ms me infl : ℚ) (yb : ℕ) (sched : List Phase)
    (h1 : 1 ≤ yb) (h2 : ∀ b ∈ sched, 1 ≤ b.years) :
    (withdrawals sched yb infl).length = total_years sched yb infl ∧
    (∀ year, year < total_years sched yb infl →
        year < (withdrawals sched yb infl).length) ∧
    (∀ year, year < yb → year < (yearly_contribs ms me yb infl).length) ∧
    0 < yb * 12 - 1 ∧
    (∀ b ∈ sched, 0 < b.years * 12 - 1) := by
  refine ⟨withdrawals_length sched yb infl, ?_, ?_, by omega, fun b hb => ?_⟩
  · intro year hy
    rw [withdrawals_length]
    exact hy
  · intro year hy
    rw [yearly_contribs_length]
    exact hy
  · have := h2 b hb
    omega

/-- C10 witness at a concrete schedule. -/
theorem simulate_loop_safety_witness :
    (withdrawals [⟨1, 5, 5⟩] 1 (2/100)).length = total_years [⟨1, 5, 5⟩] 1 (2/100) := by
  have h := simulate_loop_safety 300 800 (2/100) 1 [⟨1, 5, 5⟩] (le_refl 1) (by decide)
  exact h.1

/-- C3: for `years_build ≥ 1` the real-terms monthly contribution sequence is
the inclusive linear interpolation
`monthly_start + (monthly_end - monthly_start) * m / (months_total - 1)`
over `months_total = years_build*12` months, the nominal value of month `m`
multiplies it by `(1+inflation)^(m/12)` (compounding once per completed year),
and the annual figures are the sums of the 12-month blocks, giving exactly
`years_build` values. -/
theorem contribution_schedule_build (ms me : ℚ) (yb : ℕ) (infl : ℚ) (h : 1 ≤ yb) :
    (contribs_real ms me yb).length = yb * 12 ∧
    (∀ m, m < yb * 12 → (contribs_real ms me yb).getD m 0
        = ms + (me - ms) * m / ((yb * 12 : ℚ) - 1)) ∧
    (∀ m, m < yb * 12 → (contribs_nominal ms me yb infl).getD m 0
        = (ms + (me - ms) * m / ((yb * 12 : ℚ) - 1)) * (1 + infl) ^ (m / 12)) ∧
    yearly_contribs ms me yb infl
      = (List.range yb).map (fun i =>
          (((contribs_nominal ms me yb infl).drop (i * 12)).take 12).sum) ∧
    (yearly_contribs ms me yb infl).length = yb := by
  have hgetD : ∀ m, m < yb * 12 → (contribs_real ms me yb).getD m 0
      = ms + (me - ms) * m / ((yb * 12 : ℚ) - 1) := by
    intro m hm
    rw [contribs_real, linspace_getD ms me (yb * 12) m (by omega) hm]
    norm_cast
  refine ⟨by rw [contribs_real, linspace_length], hgetD, ?_, rfl,
    yearly_contribs_length ms me yb infl⟩
  intro m hm
  rw [contribs_nominal, getD_range_map _ _ _ _ hm, hgetD m hm]

/-- C3 witness at `years_build = 1`. -/
theorem contribution_schedule_build_witness :
    (contribs_real 0 11 1).length = 1 * 12 ∧
    (contribs_real 0 11 1).getD 3 0 = 0 + (11 - 0) * 3 / ((1 * 12 : ℚ) - 1) := by
  have h := contribution_schedule_build 0 11 1 0 (le_refl 1)
  exact ⟨h.1, h.2.1 3 (by omega)⟩

/-- C2: each withdrawal phase (with `years ≥ 1`) taken in list order builds a
real-terms monthly ramp of `years*12` values by the same inclusive linear
interpolation, its nominal month `m` multiplies by
`(1+inflation)^(years_build + m/12)`, each 12-month block is summed into one
annual figure (`years` of them per phase), and the phases' annual figures are
concatenated in order. -/
theorem withdrawal_schedule_build (sched : List Phase) (yb : ℕ) (infl : ℚ)
    (h : ∀ b ∈ sched, 1 ≤ b.years) :
    (∀ b ∈ sched, (block_vals b).length = b.years * 12) ∧
    (∀ b ∈ sched, ∀ m, m < b.years * 12 → (block_nom b yb infl).getD m 0
        = (b.start + (b.end_ - b.start) * m / ((b.years * 12 : ℚ) - 1))
          * (1 + infl) ^ (yb + m / 12)) ∧
    (∀ b ∈ sched, (block_yearly b yb infl).length = b.years) ∧
    yearly_spends sched yb infl
      = (sched.map (fun b => block_yearly b yb infl)).flatten := by
  refine ⟨fun b _ => by rw [block_vals, linspace_length], ?_,
    fun b _ => block_yearly_length b yb infl, rfl⟩
  intro b hb m hm
  have hlen : (block_vals b).length = b.years * 12 := by rw [block_vals, linspace_length]
  have hm' : m < (block_vals b).length := by omega
  rw [block_nom, getD_range_map _ _ _ _ hm', block_vals,
    linspace_getD b.start b.end_ (b.years * 12) m (by have := h b hb; omega) hm]
  norm_cast

/-- C2 witness at a single one-year phase. -/
theorem withdrawal_schedule_build_witness :
    (block_vals ⟨1, 100, 200⟩).length = 12 ∧
    (block_nom ⟨1, 100, 200⟩ 1 0).getD 3 0
      = (100 + (200 - 100) * 3 / ((1 * 12 : ℚ) - 1)) * (1 + 0) ^ (1 + 3 / 12) := by
  have h := withdrawal_schedule_build [⟨1, 100, 200⟩] 1 0 (by decide)
  exact ⟨by simpa using h.1 _ (List.mem_singleton_self _),
    by simpa using h.2.1 _ (List.mem_singleton_self _) 3 (by decide)⟩

/-- C1 counterexample: on the 1-scenario, 1-year trajectory matrix `[[0]]` the
median curve is `[0]`, whose first non-positive raw index is 0, yet the code
reports 1 (`idx[0]+1`), so the reported value is not the raw 0-based index. -/
theorem zero_year_report_counterexample :
    zero_years_of (curveOf [[(0 : ℚ)]] 50) = some 1 ∧
    firstNonPos (curveOf [[(0 : ℚ)]] 50) = some 0 ∧
    zero_years_of (curveOf [[(0 : ℚ)]] 50) ≠ firstNonPos (curveOf [[(0 : ℚ)]] 50) := by
  rw [ev_curve, ev_zero_years, ev_firstNonPos]
  exact ⟨rfl, rfl, by simp⟩

/-- C1 (amended): for every trajectory matrix and percentile, the reported
zero-crossing equals one plus the raw 0-based index of the first year at which
the percentile curve is ≤ 0, and none if no such year exists in the horizon. -/
theorem zero_year_report_plus_one (results : List (List ℚ)) (p : ℚ) :
    zero_years_of (curveOf results p)
      = (firstNonPos (curveOf results p)).map (fun i => i + 1) :=
  zero_years_of_eq (curveOf results p)

/-- C5: every recorded capital value is ≥ 0 (the clamp runs inside the yearly
loop), and once a scenario's capital is 0 it stays 0 through every later year
in which no positive net contribution re-injects capital. -/
theorem floor_invariant (start ms me : ℚ) (yb : ℕ) (sched : List Phase)
    (mean std infl : ℚ) (n : ℕ) (z : ℕ → ℕ → ℚ) :
    (∀ s t, 0 ≤ capitalAt (simulate start ms me yb sched mean std infl n z) s t) ∧
    (∀ s t t', s < n → t ≤ t' → t' < total_years sched yb infl →
      capitalAt (simulate start ms me yb sched mean std infl n z) s t = 0 →
      (∀ u, t < u → u ≤ t' →
        contribAt (yearly_contribs ms me yb infl) yb u
          ≤ withdrawAt (withdrawals sched yb infl) u) →
      capitalAt (simulate start ms me yb sched mean std infl n z) s t' = 0) := by
  refine ⟨fun s t => capitalAt_nonneg start ms me yb sched mean std infl n z s t, ?_⟩
  intro s t t' hs htt' ht' h0 hflow
  have ht : t < total_years sched yb infl := lt_of_le_of_lt htt' ht'
  rw [simulate_capitalAt start ms me yb sched mean std infl n z s t hs ht] at h0
  rw [simulate_capitalAt start ms me yb sched mean std infl n z s t' hs ht']
  exact capAt_absorb _ _ _ _ _ _ _ _ h0 t' htt' hflow

/-- C5 witness: a scenario that starts at 0 with no cash inflow stays at 0. -/
theorem floor_invariant_witness :
    capitalAt (simulate 0 0 0 1 [⟨1, 0, 0⟩] 0 0 (2/100) 1 (fun _ _ => 0)) 0 1 = 0 := by
  have h := (floor_invariant 0 0 0 1 [⟨1, 0, 0⟩] 0 0 (2/100) 1 (fun _ _ => 0)).2
  refine h 0 0 1 Nat.zero_lt_one (Nat.zero_le 1)
    (by rw [ev_T0]; exact Nat.one_lt_two) ev_cap5 ?_
  intro u hu1 hu2
  have hu : u = 1 := by omega
  subst hu
  rw [ev_w0]
  simp [contribAt, withdrawAt]

/-- C6: with zero return mean and zero volatility the trajectory is fully
deterministic (independent of the draws), each recorded value equals the
initial capital plus the cumulative net cash flow clamped at 0 (for the
domain's non-negative schedules), and the concrete flat-300 one-build-year
instance records `10000 + 12*300 = 13600`. -/
theorem zero_return_identity :
    (∀ (start ms me : ℚ) (yb : ℕ) (sched : List Phase) (infl : ℚ) (n : ℕ)
        (z z' : ℕ → ℕ → ℚ),
      simulate start ms me yb sched 0 0 infl n z
        = simulate start ms me yb sched 0 0 infl n z') ∧
    (∀ (start ms me : ℚ) (yb : ℕ) (sched : List Phase) (infl : ℚ) (n : ℕ)
        (z : ℕ → ℕ → ℚ) (s t : ℕ),
      0 ≤ start →
      (∀ x ∈ yearly_contribs ms me yb infl, 0 ≤ x) →
      (∀ x ∈ yearly_spends sched yb infl, 0 ≤ x) →
      s < n → t < total_years sched yb infl →
      capitalAt (simulate start ms me yb sched 0 0 infl n z) s t
        = max 0 (start + ((List.range (t + 1)).map (fun u =>
            contribAt (yearly_contribs ms me yb infl) yb u
              - withdrawAt (withdrawals sched yb infl) u)).sum)) ∧
    (∀ z : ℕ → ℕ → ℚ,
      capitalAt (simulate 10000 300 300 1 [] 0 0 (2/100) 1 z) 0 0 = 13600) := by
  refine ⟨fun start ms me yb sched infl n z z' =>
    simulate_std_zero start ms me yb sched 0 infl n z z', ?_, ?_⟩
  · intro start ms me yb sched infl n z s t hstart hyc hys hs ht
    rw [simulate_capitalAt start ms me yb sched 0 0 infl n z s t hs ht]
    apply capAt_zero_return
    · exact hstart
    · intro u hu
      rw [withdrawAt_before_build sched yb infl u hu, contribAt, if_pos hu]
      simpa using getD_zero_nonneg _ hyc u
    · intro u hu
      rw [contribAt, if_neg (not_lt.mpr hu)]
      have hw : 0 ≤ withdrawAt (withdrawals sched yb infl) u := by
        rw [withdrawAt]
        split
        · exact getD_zero_nonneg _ (withdrawals_mem_nonneg sched yb infl hys) u
        · exact le_refl 0
      linarith
  · intro z
    rw [simulate_std_zero 10000 300 300 1 [] 0 (2/100) 1 z (fun _ _ => 0)]
    exact ev_cap6

/-- C6 witness: the zero-return identity applied at the concrete instance. -/
theorem zero_return_identity_witness :
    capitalAt (simulate 10000 300 300 1 [] 0 0 (2/100) 1 (fun _ _ => 0)) 0 0
      = max 0 (10000 + ((List.range (0 + 1)).map (fun u =>
          contribAt (yearly_contribs 300 300 1 (2/100)) 1 u
            - withdrawAt (withdrawals [] 1 (2/100)) u)).sum) :=
  zero_return_identity.2.1 10000 300 300 1 [] (2/100) 1 (fun _ _ => 0) 0 0
    (by norm_num) (by rw [ev_yc300]; norm_num) (by rw [ev_spends_nil]; simp)
    Nat.zero_lt_one (by rw [ev_T_nil]; exact Nat.zero_lt_one)

theorem capAt_congr (yc w : List ℚ) (yb : ℕ) (mean std : ℚ) (z z' : ℕ → ℚ)
    (start : ℚ) :
    ∀ t, (∀ u, u ≤ t → z u = z' u) →
      capAt yc w yb mean std z start t = capAt yc w yb mean std z' start t := by
  intro t
  induction t with
  | zero =>
    intro hz
    simp only [capAt, stepYear, hz 0 (le_refl 0)]
  | succ k ih =>
    intro hz
    simp only [capAt, stepYear]
    rw [hz (k + 1) (le_refl _), ih (fun u hu => hz u (Nat.le_succ_of_le hu))]

/-- C7 counterexample: `simulate` has no seed input; with every declared input
held identical, two runs whose ambient entropy differs (modelled by the draw
stream, line 29's unseeded `default_rng()`) give different trajectory
matrices, so reproducibility by seed does not hold of this code. -/
theorem seeded_determinism_counterexample :
    simulate 10000 300 300 1 [] 0 1 (2/100) 1 (fun _ _ => 0)
      ≠ simulate 10000 300 300 1 [] 0 1 (2/100) 1 (fun _ _ => 1) := by
  intro heq
  have h := congrArg (fun r => capitalAt r 0 0) heq
  simp only at h
  rw [ev_cap7a, ev_cap7b] at h
  norm_num at h

/-- C7 (amended): the function is deterministic in its declared inputs
together with the consumed draws — two runs that see the same draws on every
consumed index (scenario < n, year < total_years) give identical matrices. -/
theorem simulate_deterministic_in_draws (start ms me : ℚ) (yb : ℕ)
    (sched : List Phase) (mean std infl : ℚ) (n : ℕ) (z z' : ℕ → ℕ → ℚ)
    (hz : ∀ s, s < n → ∀ t, t < total_years sched yb infl → z s t = z' s t) :
    simulate start ms me yb sched mean std infl n z
      = simulate start ms me yb sched mean std infl n z' := by
  unfold simulate
  simp only [SimResult.mk.injEq, and_true]
  apply List.map_congr_left
  intro s hs
  rw [List.mem_range] at hs
  unfold scenarioRow
  apply List.map_congr_left
  intro t ht
  rw [List.mem_range] at ht
  exact capAt_congr _ _ _ _ _ _ _ _ t (fun u hu => hz s hs u (lt_of_le_of_lt hu ht))

/-- C7 witness: draws that differ only outside the consumed rectangle yield
the same result. -/
theorem simulate_deterministic_in_draws_witness :
    simulate 10000 300 300 1 [] (7/100) (15/100) (2/100) 1 (fun _ _ => 0)
      = simulate 10000 300 300 1 [] (7/100) (15/100) (2/100) 1
          (fun _ t => if 1 ≤ t then 99 else 0) := by
  apply simulate_deterministic_in_draws
  intro s _ t ht
  rw [ev_T_nil] at ht
  have hz : t = 0 := by omega
  subst hz
  norm_num

/-- C8 counterexample: with `n_scenarios = 0` — which the claim says must
raise `EmptyResultSet` before any simulation work — `simulate` instead returns
normally, surfacing an empty trajectory matrix together with the fully
computed withdrawal schedule. -/
theorem validation_counterexample :
    (simulate 10000 300 800 1 [⟨1, 3000, 3000⟩] (7/100) (15/100) (2/100) 0
        (fun _ _ => 0)).results = [] ∧
    (simulate 10000 300 800 1 [⟨1, 3000, 3000⟩] (7/100) (15/100) (2/100) 0
        (fun _ _ => 0)).withdrawals = [0, 36720] := by
  constructor
  · rfl
  · show withdrawals [⟨1, 3000, 3000⟩] 1 (2/100) = [0, 36720]
    rw [withdrawals, ev_spends3000]
    rfl

/-- C8 (amended): `simulate` performs no input validation: with
`n_scenarios = 0` it returns an empty matrix plus the computed withdrawal
schedule, and with `years_build = 0` it likewise returns normally with one row
per scenario. -/
theorem simulate_no_validation (start ms me : ℚ) (yb : ℕ) (sched : List Phase)
    (mean std infl : ℚ) (n : ℕ) (z : ℕ → ℕ → ℚ) :
    ((simulate start ms me yb sched mean std infl 0 z).results = [] ∧
      (simulate start ms me yb sched mean std infl 0 z).withdrawals
        = withdrawals sched yb infl) ∧
    ((simulate start ms me 0 sched mean std infl n z).results.length = n ∧
      (simulate start ms me 0 sched mean std infl n z).withdrawals
        = yearly_spends sched 0 infl) := by
  refine ⟨⟨rfl, rfl⟩, ?_, ?_⟩
  · simp [simulate]
  · show withdrawals sched 0 infl = _
    rw [withdrawals]
    simp

end App
